import Mathlib

set_option maxRecDepth 10000

attribute [local semireducible] Rat.mul Rat.add Rat.sub Rat.inv

/-!
Verification of the XAUUSD trend-following trading core (strategy.py,
risk_manager.py, backtest.py) against its natural-language specification.

The embedding models Python floats as exact rationals; pandas Series become
Lean lists (with Option for NaN cells); Python round(x, n) becomes
round-half-to-even on rationals.  Bars are records of rationals with an
integer epoch-seconds timestamp.
-/

/-- Python round(x) on a rational: round to the nearest integer, ties to even
(banker's rounding, as used by Python's builtin round). -/
def roundHalfEvenInt (x : ℚ) : ℤ :=
  let f := x.floor
  let r := x - (f : ℚ)
  if r < 1/2 then f
  else if 1/2 < r then f + 1
  else if f % 2 = 0 then f else f + 1

/-- Python round(x, d): round to d decimal places, ties to even. -/
def roundDec (d : ℕ) (x : ℚ) : ℚ :=
  (roundHalfEvenInt (x * (10 : ℚ) ^ d) : ℚ) / (10 : ℚ) ^ d

/-- pandas Series.clip(lo, hi). -/
def clipQ (lo hi x : ℚ) : ℚ := max lo (min x hi)

/-- Maximum of a list of rationals (pandas .max() over a non-empty slice);
none models the NaN produced by an empty slice. -/
def listMax? : List ℚ → Option ℚ
  | [] => none
  | x :: xs => some (xs.foldl max x)

/-- Minimum of a list of rationals; none models the NaN of an empty slice. -/
def listMin? : List ℚ → Option ℚ
  | [] => none
  | x :: xs => some (xs.foldl min x)

/-- Recursion for pandas ewm(adjust=False).mean() over a NaN-free series:
y0 = x0, then y = (1-a)*y + a*x. -/
def ewmAFgo (a y : ℚ) : List ℚ → List ℚ
  | [] => [y]
  | x :: xs => y :: ewmAFgo a ((1 - a) * y + a * x) xs

/-- pandas Series.ewm(span or com, adjust=False).mean() on a NaN-free series;
a is the smoothing factor alpha. -/
def ewmAdjustFalse (a : ℚ) : List ℚ → List ℚ
  | [] => []
  | x :: xs => ewmAFgo a x xs

/-- Recursion for pandas ewm(adjust=True, min_periods).mean(): num and den
accumulate the weighted sum and the weight total with decay w = 1 - alpha;
cnt counts observations so far; cells before min_periods observations are
none (NaN). -/
def ewmATgo (w : ℚ) (minp : ℕ) (num den : ℚ) (cnt : ℕ) : List ℚ → List (Option ℚ)
  | [] => []
  | x :: xs =>
    let num2 := w * num + x
    let den2 := w * den + 1
    (if cnt + 1 < minp then none else some (num2 / den2)) ::
      ewmATgo w minp num2 den2 (cnt + 1) xs

/-- pandas Series.ewm(com, min_periods, adjust=True).mean() on a NaN-free
series, with decay w = 1 - alpha = com/(1+com). -/
def ewmAdjustTrue (w : ℚ) (minp : ℕ) (xs : List ℚ) : List (Option ℚ) :=
  ewmATgo w minp 0 0 0 xs

/-- Recursion for pandas ewm(adjust=False, ignore_na=False).mean() over a
series that may contain NaN (none): a NaN cell keeps the current mean but
decays the weights by absolute position, matching the pandas documentation
example for [x0, None, x2]. -/
def ewmNaNgo (a num den : ℚ) (started : Bool) : List (Option ℚ) → List (Option ℚ)
  | [] => []
  | x? :: xs =>
    match x? with
    | none =>
      if started then
        some (((1 - a) * num) / ((1 - a) * den)) ::
          ewmNaNgo a ((1 - a) * num) ((1 - a) * den) true xs
      else none :: ewmNaNgo a num den false xs
    | some x =>
      if started then
        some (((1 - a) * num + a * x) / ((1 - a) * den + a)) ::
          ewmNaNgo a ((1 - a) * num + a * x) ((1 - a) * den + a) true xs
      else some x :: ewmNaNgo a x 1 true xs

/-- pandas ewm(span, adjust=False).mean() on a series with NaN cells. -/
def ewmAdjustFalseNaN (a : ℚ) (xs : List (Option ℚ)) : List (Option ℚ) :=
  ewmNaNgo a 0 0 false xs

/-- pandas Series.rolling(w).mean(): none (NaN) until a full window exists. -/
def rollingMean (w : ℕ) (xs : List ℚ) : List (Option ℚ) :=
  (List.range xs.length).map fun i =>
    if w ≤ i + 1 then some ((((xs.drop (i + 1 - w)).take w).foldl (· + ·) 0) / w)
    else none

/-- One OHLC bar (a row of the pandas DataFrame); time is epoch seconds. -/
structure Bar where
  time : ℕ
  opn : ℚ
  high : ℚ
  low : ℚ
  close : ℚ
  vol : ℚ
deriving DecidableEq, Repr

/-- Placeholder bar used as the default of List.getD at indices the code
never reads out of range. -/
def defaultBar : Bar := ⟨0, 0, 0, 0, 0, 0⟩

/-- Trade direction / signal value ("BUY" | "SELL" | "NONE" in the code). -/
inductive Signal
  | BUY
  | SELL
  | NONE
deriving DecidableEq, Repr

/-- Value of the per-bar trend column ('BULLISH' | 'BEARISH'). -/
inductive Trend
  | BULLISH
  | BEARISH
deriving DecidableEq, Repr

/-- Higher-timeframe trend result of check_higher_timeframe_trend. -/
inductive HtfTrend
  | BULLISH
  | BEARISH
  | UNKNOWN
deriving DecidableEq, Repr

/-- Keys of the confluence-condition dictionaries built in check_signal. -/
inductive CondKey
  | tendencia
  | rsi
  | pullback
  | liquidity
  | fibonacci_ote
  | macd_momentum
  | sentiment
deriving DecidableEq, Repr

/-- Result of get_dynamic_sl_tp (the "atr_levels" dict). -/
structure AtrLevels where
  sl_distance : ℚ
  tp_distance : ℚ
  atr : ℚ
deriving DecidableEq, Repr

/-- Decision returned by Strategy.check_signal. -/
structure SignalDecision where
  signal : Signal
  atr_levels : Option AtrLevels
  confluences_met : ℕ
  total_confluences : ℕ
  confluences_detail : List (CondKey × Bool)
  risk_percent : ℚ
deriving DecidableEq, Repr

/-- Optional sentiment-adjustments dict handed to check_signal; a missing key
is none. -/
structure SentimentAdj where
  rsi_lower : Option ℚ := none
  rsi_upper : Option ℚ := none
  atr_sl_multiplier : Option ℚ := none
  atr_tp_multiplier : Option ℚ := none
  min_confluences : Option ℕ := none
  sentiment_confluence_buy : Option Bool := none
  sentiment_confluence_sell : Option Bool := none
deriving DecidableEq, Repr

/-- The module-level configuration (config.py) restricted to the fields the
decision core reads. -/
structure Config where
  emaFast : ℕ
  emaSlow : ℕ
  ema200Enabled : Bool
  ema200Period : ℕ
  rsiPeriod : ℕ
  rsiLower : ℚ
  rsiUpper : ℚ
  atrPeriod : ℕ
  adxEnabled : Bool
  adxPeriod : ℕ
  adxMinThreshold : ℚ
  macdEnabled : Bool
  macdFast : ℕ
  macdSlow : ℕ
  macdSignal : ℕ
  atrSlMultiplier : ℚ
  atrTpMultiplier : ℚ
  useDynamicSlTp : Bool
  atrVolatilityFilter : Bool
  atrMaxMultiplier : ℚ
  liquidityLookback : ℕ
  pullbackLookback : ℕ
  mtfEnabled : Bool
  mtfEmaFast : ℕ
  mtfEmaSlow : ℕ
  tieredRiskEnabled : Bool
  minConfluences : ℕ
  riskByConfluences : List (ℕ × ℚ)
  riskPercent : ℚ
  sentimentAsConfluence : Bool
  stopLossPips : ℚ
  takeProfitPips : ℚ
  breakEvenPips : ℚ
deriving Repr

/-- The risk tier table RISK_BY_CONFLUENCES of config.py. -/
def repoRiskMap : List (ℕ × ℚ) :=
  [(7, 3/4), (6, 3/5), (5, 1/2), (4, 3/10), (3, 3/20)]

/-- The values of config.py as committed in the repository. -/
def repoConfig : Config where
  emaFast := 21
  emaSlow := 50
  ema200Enabled := true
  ema200Period := 200
  rsiPeriod := 14
  rsiLower := 30
  rsiUpper := 70
  atrPeriod := 14
  adxEnabled := true
  adxPeriod := 14
  adxMinThreshold := 20
  macdEnabled := true
  macdFast := 12
  macdSlow := 26
  macdSignal := 9
  atrSlMultiplier := 2
  atrTpMultiplier := 5
  useDynamicSlTp := true
  atrVolatilityFilter := true
  atrMaxMultiplier := 5/2
  liquidityLookback := 15
  pullbackLookback := 7
  mtfEnabled := true
  mtfEmaFast := 21
  mtfEmaSlow := 50
  tieredRiskEnabled := true
  minConfluences := 4
  riskByConfluences := repoRiskMap
  riskPercent := 1/2
  sentimentAsConfluence := false
  stopLossPips := 35
  takeProfitPips := 90
  breakEvenPips := 25

/-- Strategy.fractal_lookback, fixed to 5 in Strategy.__init__. -/
def fractalLookback : ℕ := 5

/-- Strategy._calculate_rsi: the gain series; prices.diff() gives NaN at
index 0, and Series.where(delta > 0, 0.0) maps that NaN to 0.0. -/
def rsiGains (prices : List ℚ) : List ℚ :=
  match prices with
  | [] => []
  | _ :: _ =>
    0 :: (List.zipWith (fun a b => b - a) prices prices.tail).map
      (fun d => if 0 < d then d else 0)

/-- Strategy._calculate_rsi: the loss series (-delta where delta < 0 else 0). -/
def rsiLosses (prices : List ℚ) : List ℚ :=
  match prices with
  | [] => []
  | _ :: _ =>
    0 :: (List.zipWith (fun a b => b - a) prices prices.tail).map
      (fun d => if d < 0 then -d else 0)

/-- gain.ewm(com=period-1, min_periods=period).mean(): the smoothed average
gain; decay w = 1 - 1/period = (period-1)/period. -/
def rsiAvgGain (prices : List ℚ) (period : ℕ) : List (Option ℚ) :=
  ewmAdjustTrue (((period : ℚ) - 1) / period) period (rsiGains prices)

/-- loss.ewm(com=period-1, min_periods=period).mean(): the smoothed average
loss. -/
def rsiAvgLoss (prices : List ℚ) (period : ℕ) : List (Option ℚ) :=
  ewmAdjustTrue (((period : ℚ) - 1) / period) period (rsiLosses prices)

/-- One cell of the RSI before the final clip: rs = avg_gain/avg_loss with
avg_loss 0 replaced by NaN, rsi = 100 - 100/(1+rs), then fillna(100) (which
covers both the warm-up NaN and the zero-average-loss NaN). -/
def rsiRaw : Option ℚ → Option ℚ → ℚ
  | some g, some l => if l = 0 then 100 else 100 - 100 / (1 + g / l)
  | _, _ => 100

/-- Strategy._calculate_rsi(prices, period): fillna(100) then clip(0, 100). -/
def calculateRsi (prices : List ℚ) (period : ℕ) : List ℚ :=
  List.zipWith (fun g l => clipQ 0 100 (rsiRaw g l))
    (rsiAvgGain prices period) (rsiAvgLoss prices period)

/-- True-range series of Strategy._calculate_atr: max(high-low,
|high-prevClose|, |low-prevClose|); at index 0 the shifted terms are NaN and
the row max skips them, leaving high-low. -/
def trueRange (df : List Bar) : List ℚ :=
  match df with
  | [] => []
  | b0 :: _ =>
    (b0.high - b0.low) ::
      List.zipWith
        (fun prev cur =>
          max (cur.high - cur.low) (max |cur.high - prev.close| |cur.low - prev.close|))
        df df.tail

/-- Strategy._calculate_atr(df, period): true_range.ewm(span=period,
adjust=False).mean(). -/
def calculateAtr (df : List Bar) (period : ℕ) : List ℚ :=
  ewmAdjustFalse (2 / ((period : ℚ) + 1)) (trueRange df)

/-- Strategy._calculate_adx(df, period); cells where ATR or +DI + -DI is zero
are NaN (none) and the final ewm smoothing skips them pandas-style. -/
def calculateAdx (df : List Bar) (period : ℕ) : List (Option ℚ) :=
  let a := 2 / ((period : ℚ) + 1)
  let plusDm : List ℚ :=
    match df with
    | [] => []
    | _ :: _ =>
      0 :: List.zipWith
        (fun prev cur =>
          let up := cur.high - prev.high
          let dn := prev.low - cur.low
          if dn < up ∧ 0 < up then up else 0)
        df df.tail
  let minusDm : List ℚ :=
    match df with
    | [] => []
    | _ :: _ =>
      0 :: List.zipWith
        (fun prev cur =>
          let up := cur.high - prev.high
          let dn := prev.low - cur.low
          if up < dn ∧ 0 < dn then dn else 0)
        df df.tail
  let atr := ewmAdjustFalse a (trueRange df)
  let plusDi := List.zipWith
    (fun t p => if t = 0 then none else some (100 * (p / t)))
    atr (ewmAdjustFalse a plusDm)
  let minusDi := List.zipWith
    (fun t m => if t = 0 then none else some (100 * (m / t)))
    atr (ewmAdjustFalse a minusDm)
  let dx := List.zipWith
    (fun p? m? =>
      match p?, m? with
      | some p, some m => if p + m = 0 then none else some (|p - m| / (p + m) * 100)
      | _, _ => none)
    plusDi minusDi
  ewmAdjustFalseNaN a dx

/-- Strategy._calculate_macd histogram: macd line minus its signal line. -/
def macdHistogram (cfg : Config) (prices : List ℚ) : List ℚ :=
  let line := List.zipWith (· - ·)
    (ewmAdjustFalse (2 / ((cfg.macdFast : ℚ) + 1)) prices)
    (ewmAdjustFalse (2 / ((cfg.macdSlow : ℚ) + 1)) prices)
  List.zipWith (· - ·) line (ewmAdjustFalse (2 / ((cfg.macdSignal : ℚ) + 1)) line)

/-- The ema_fast column (EMA over closes, span = EMA_FAST). -/
def emaFastSeries (cfg : Config) (df : List Bar) : List ℚ :=
  ewmAdjustFalse (2 / ((cfg.emaFast : ℚ) + 1)) (df.map (·.close))

/-- The ema_slow column (EMA over closes, span = EMA_SLOW). -/
def emaSlowSeries (cfg : Config) (df : List Bar) : List ℚ :=
  ewmAdjustFalse (2 / ((cfg.emaSlow : ℚ) + 1)) (df.map (·.close))

/-- The ema_200 column (EMA over closes, span = EMA_200_PERIOD). -/
def ema200Series (cfg : Config) (df : List Bar) : List ℚ :=
  ewmAdjustFalse (2 / ((cfg.ema200Period : ℚ) + 1)) (df.map (·.close))

/-- The trend column: np.where(ema_fast > ema_slow, 'BULLISH', 'BEARISH'). -/
def trendSeries (cfg : Config) (df : List Bar) : List Trend :=
  List.zipWith (fun f s => if s < f then Trend.BULLISH else Trend.BEARISH)
    (emaFastSeries cfg df) (emaSlowSeries cfg df)

/-- Strategy._detect_pullback_buy: the current bar closes above the fast EMA
and some bar of the previous lookback bars had its low at or below the fast
EMA; indices before the lookback stay False. -/
def detectPullbackBuy (cfg : Config) (df : List Bar) : List Bool :=
  let ema := emaFastSeries cfg df
  (List.range df.length).map fun i =>
    if cfg.pullbackLookback ≤ i then
      decide (ema.getD i 0 < (df.getD i defaultBar).close) &&
        ((List.range cfg.pullbackLookback).any fun j =>
          decide ((df.getD (i - (j + 1)) defaultBar).low ≤ ema.getD (i - (j + 1)) 0))
    else false

/-- Strategy._detect_pullback_sell: mirror of the bullish pullback. -/
def detectPullbackSell (cfg : Config) (df : List Bar) : List Bool :=
  let ema := emaFastSeries cfg df
  (List.range df.length).map fun i =>
    if cfg.pullbackLookback ≤ i then
      decide ((df.getD i defaultBar).close < ema.getD i 0) &&
        ((List.range cfg.pullbackLookback).any fun j =>
          decide (ema.getD (i - (j + 1)) 0 ≤ (df.getD (i - (j + 1)) defaultBar).high))
    else false

/-- Strategy._detect_sweep_high: the bar's high breaks the maximum high of
the preceding lookback bars and its close falls back below it. -/
def detectSweepHigh (lookback : ℕ) (df : List Bar) : List Bool :=
  (List.range df.length).map fun i =>
    if lookback ≤ i then
      match listMax? (((df.drop (i - lookback)).take lookback).map (·.high)) with
      | some m => decide (m < (df.getD i defaultBar).high ∧ (df.getD i defaultBar).close < m)
      | none => false
    else false

/-- Strategy._detect_sweep_low: the bar's low breaks the minimum low of the
preceding lookback bars and its close recovers above it. -/
def detectSweepLow (lookback : ℕ) (df : List Bar) : List Bool :=
  (List.range df.length).map fun i =>
    if lookback ≤ i then
      match listMin? (((df.drop (i - lookback)).take lookback).map (·.low)) with
      | some m => decide ((df.getD i defaultBar).low < m ∧ m < (df.getD i defaultBar).close)
      | none => false
    else false

/-- Strategy._detect_fractal_high: a bar strictly above the highs of the n
bars on both sides (ties disqualify; boundary bars are never fractals). -/
def detectFractalHigh (df : List Bar) : List (Option ℚ) :=
  let n := fractalLookback
  (List.range df.length).map fun i =>
    if n ≤ i ∧ i + n < df.length then
      if (List.range n).all fun j =>
          decide ((df.getD (i - (j + 1)) defaultBar).high < (df.getD i defaultBar).high ∧
            (df.getD (i + (j + 1)) defaultBar).high < (df.getD i defaultBar).high) then
        some (df.getD i defaultBar).high
      else none
    else none

/-- Strategy._detect_fractal_low: mirror of the high fractal. -/
def detectFractalLow (df : List Bar) : List (Option ℚ) :=
  let n := fractalLookback
  (List.range df.length).map fun i =>
    if n ≤ i ∧ i + n < df.length then
      if (List.range n).all fun j =>
          decide ((df.getD i defaultBar).low < (df.getD (i - (j + 1)) defaultBar).low ∧
            (df.getD i defaultBar).low < (df.getD (i + (j + 1)) defaultBar).low) then
        some (df.getD i defaultBar).low
      else none
    else none

/-- Index and value of the last non-NaN entry of a fractal column. -/
def lastSomeWithIdx (l : List (Option ℚ)) : Option (ℕ × ℚ) :=
  (List.range l.length).foldl
    (fun acc i => match l.getD i none with | some v => some (i, v) | none => acc) none

/-- Strategy._get_last_swing_points: (last confirmed swing high, last
confirmed swing low), each with its bar index. -/
def getLastSwingPoints (df : List Bar) : Option (ℕ × ℚ) × Option (ℕ × ℚ) :=
  (lastSomeWithIdx (detectFractalHigh df), lastSomeWithIdx (detectFractalLow df))

/-- Result dict of Strategy._check_fibonacci_ote; the invalid returns carry
no swing/zone values (none). -/
structure FibResult where
  in_ote : Bool
  fib_level : Option ℚ
  zone_low : Option ℚ
  zone_high : Option ℚ
  swing_high : Option ℚ
  swing_low : Option ℚ
deriving DecidableEq, Repr

/-- The insufficient-data / invalid-leg return of _check_fibonacci_ote. -/
def fibInvalid : FibResult := ⟨false, none, none, none, none, none⟩

/-- Close of the last closed bar, df.iloc[-2]['close']; none models the
IndexError a frame with fewer than two rows would raise. -/
def lastClosedClose (df : List Bar) : Option ℚ :=
  (df[df.length - 2]?).map (·.close)

/-- Body of Strategy._check_fibonacci_ote given the current price and the
last swing points: temporal-order validation, the 61.8 and 78.6 retracement
levels, zone membership and the normalized fib level (rounded as the code
rounds: level to 3 decimals, zone bounds to 2). -/
def fibOteCore (price : ℚ) (swings : Option (ℕ × ℚ) × Option (ℕ × ℚ))
    (direction : Signal) : FibResult :=
  match swings with
  | (some (ih, h), some (il, lo)) =>
    if direction = Signal.BUY then
      if ih ≤ il then fibInvalid
      else
        if h - lo ≤ 0 then fibInvalid
        else
          let fib618 := h - (h - lo) * (618/1000)
          let fib786 := h - (h - lo) * (786/1000)
          { in_ote := decide (fib786 ≤ price ∧ price ≤ fib618)
            fib_level := some (roundDec 3 ((h - price) / (h - lo)))
            zone_low := some (roundDec 2 fib786)
            zone_high := some (roundDec 2 fib618)
            swing_high := some h
            swing_low := some lo }
    else
      if il ≤ ih then fibInvalid
      else
        if h - lo ≤ 0 then fibInvalid
        else
          let fib618 := lo + (h - lo) * (618/1000)
          let fib786 := lo + (h - lo) * (786/1000)
          { in_ote := decide (fib618 ≤ price ∧ price ≤ fib786)
            fib_level := some (roundDec 3 ((price - lo) / (h - lo)))
            zone_low := some (roundDec 2 fib618)
            zone_high := some (roundDec 2 fib786)
            swing_high := some h
            swing_low := some lo }
  | _ => fibInvalid

/-- Strategy._check_fibonacci_ote(df, direction); none when the frame has
fewer than two rows (iloc[-2] would raise). -/
def fibOte (df : List Bar) (direction : Signal) : Option FibResult :=
  (lastClosedClose df).map fun p => fibOteCore p (getLastSwingPoints df) direction

/-- Strategy.check_volatility_filter: accept unless the current ATR exceeds
max_multiplier times its 50-period rolling mean (NaN or zero mean accept). -/
def checkVolatilityFilter (cfg : Config) (df : List Bar) : Bool :=
  if cfg.atrVolatilityFilter = false then true
  else
    let atr := calculateAtr df cfg.atrPeriod
    let i := df.length - 2
    match (rollingMean 50 atr).getD i none with
    | none => true
    | some s =>
      if s = 0 then true
      else if cfg.atrMaxMultiplier < atr.getD i 0 / s then false
      else true

/-- Strategy.get_dynamic_sl_tp with explicit multipliers (check_signal always
passes the sentiment-adjusted ones); none when dynamic SL/TP is disabled or
the current ATR is not positive. -/
def getDynamicSlTp (cfg : Config) (df : List Bar) (slMult tpMult : ℚ) :
    Option AtrLevels :=
  if cfg.useDynamicSlTp = false then none
  else
    let a := (calculateAtr df cfg.atrPeriod).getD (df.length - 2) 0
    if a ≤ 0 then none
    else some ⟨roundDec 2 (a * slMult), roundDec 2 (a * tpMult), roundDec 2 a⟩

/-- Strategy.check_higher_timeframe_trend on the higher-timeframe frame. -/
def checkHigherTimeframeTrend (cfg : Config) (dfHtf : List Bar) : HtfTrend :=
  if dfHtf.length = 0 then HtfTrend.UNKNOWN
  else if dfHtf.length < cfg.mtfEmaSlow + 5 then HtfTrend.UNKNOWN
  else
    let ef := ewmAdjustFalse (2 / ((cfg.mtfEmaFast : ℚ) + 1)) (dfHtf.map (·.close))
    let es := ewmAdjustFalse (2 / ((cfg.mtfEmaSlow : ℚ) + 1)) (dfHtf.map (·.close))
    match ef[dfHtf.length - 2]?, es[dfHtf.length - 2]? with
    | some f, some s => if s < f then HtfTrend.BULLISH else HtfTrend.BEARISH
    | _, _ => HtfTrend.UNKNOWN

/-- dict.get(key, False) over a confluence dictionary. -/
def lookupBool (conds : List (CondKey × Bool)) (k : CondKey) : Bool :=
  (conds.lookup k).getD false

/-- Effective RSI lower bound (sentiment_adjustments.get("rsi_lower", ...)). -/
def effRsiLower (cfg : Config) (sent : Option SentimentAdj) : ℚ :=
  match sent with
  | some s => s.rsi_lower.getD cfg.rsiLower
  | none => cfg.rsiLower

/-- Effective RSI upper bound. -/
def effRsiUpper (cfg : Config) (sent : Option SentimentAdj) : ℚ :=
  match sent with
  | some s => s.rsi_upper.getD cfg.rsiUpper
  | none => cfg.rsiUpper

/-- Effective ATR stop-loss multiplier. -/
def effAtrSlMult (cfg : Config) (sent : Option SentimentAdj) : ℚ :=
  match sent with
  | some s => s.atr_sl_multiplier.getD cfg.atrSlMultiplier
  | none => cfg.atrSlMultiplier

/-- Effective ATR take-profit multiplier. -/
def effAtrTpMult (cfg : Config) (sent : Option SentimentAdj) : ℚ :=
  match sent with
  | some s => s.atr_tp_multiplier.getD cfg.atrTpMultiplier
  | none => cfg.atrTpMultiplier

/-- Effective minimum confluence count. -/
def effMinConf (cfg : Config) (sent : Option SentimentAdj) : ℕ :=
  match sent with
  | some s => s.min_confluences.getD cfg.minConfluences
  | none => cfg.minConfluences

/-- The buy_conditions dictionary of check_signal, evaluated at the last
closed bar (index length-2): trend bullish, RSI within the effective bounds,
bullish pullback, sweep of the structural low, price in the BUY Fibonacci
zone, plus the optional MACD and sentiment entries. -/
def buyConfluenceSet (cfg : Config) (df : List Bar) (sent : Option SentimentAdj) :
    List (CondKey × Bool) :=
  let i := df.length - 2
  let trend := (trendSeries cfg df).getD i Trend.BEARISH
  let rsiVal := (calculateRsi (df.map (·.close)) cfg.rsiPeriod).getD i 0
  [(CondKey.tendencia, decide (trend = Trend.BULLISH)),
   (CondKey.rsi, decide (effRsiLower cfg sent ≤ rsiVal ∧ rsiVal ≤ effRsiUpper cfg sent)),
   (CondKey.pullback, (detectPullbackBuy cfg df).getD i false),
   (CondKey.liquidity, (detectSweepLow cfg.liquidityLookback df).getD i false),
   (CondKey.fibonacci_ote, ((fibOte df Signal.BUY).map (·.in_ote)).getD false)] ++
  (if cfg.macdEnabled then
    [(CondKey.macd_momentum,
      decide (0 < (macdHistogram cfg (df.map (·.close))).getD i 0))]
   else []) ++
  (match sent with
   | some s =>
     if cfg.sentimentAsConfluence then
       [(CondKey.sentiment, s.sentiment_confluence_buy.getD false)]
     else []
   | none => [])

/-- The sell_conditions dictionary of check_signal: trend bearish, RSI within
bounds, bearish pullback, sweep of the structural high, price in the SELL
Fibonacci zone, plus the optional MACD (histogram negative) and sentiment
entries. -/
def sellConfluenceSet (cfg : Config) (df : List Bar) (sent : Option SentimentAdj) :
    List (CondKey × Bool) :=
  let i := df.length - 2
  let trend := (trendSeries cfg df).getD i Trend.BEARISH
  let rsiVal := (calculateRsi (df.map (·.close)) cfg.rsiPeriod).getD i 0
  [(CondKey.tendencia, decide (trend = Trend.BEARISH)),
   (CondKey.rsi, decide (effRsiLower cfg sent ≤ rsiVal ∧ rsiVal ≤ effRsiUpper cfg sent)),
   (CondKey.pullback, (detectPullbackSell cfg df).getD i false),
   (CondKey.liquidity, (detectSweepHigh cfg.liquidityLookback df).getD i false),
   (CondKey.fibonacci_ote, ((fibOte df Signal.SELL).map (·.in_ote)).getD false)] ++
  (if cfg.macdEnabled then
    [(CondKey.macd_momentum,
      decide ((macdHistogram cfg (df.map (·.close))).getD i 0 < 0))]
   else []) ++
  (match sent with
   | some s =>
     if cfg.sentimentAsConfluence then
       [(CondKey.sentiment, s.sentiment_confluence_sell.getD false)]
     else []
   | none => [])

/-- sum(conditions.values()): number of conditions that hold. -/
def metCount (conds : List (CondKey × Bool)) : ℕ := conds.countP (·.2)

/-- The best-signal selection chain of check_signal (lines 697-716): prefer
the direction whose trend holds and whose count is at least the other's
(ties go to BUY), then the minimum-confluence fallbacks. -/
def selectBest (buyTrend sellTrend : Bool) (buyMet sellMet minConf : ℕ) : Signal :=
  if buyTrend = true ∧ sellMet ≤ buyMet then Signal.BUY
  else if sellTrend = true ∧ buyMet < sellMet then Signal.SELL
  else if buyTrend = true ∧ minConf ≤ buyMet then Signal.BUY
  else if sellTrend = true ∧ minConf ≤ sellMet then Signal.SELL
  else Signal.NONE

/-- Descending insertion of a key (used to model sorted(keys, reverse=True)). -/
def insertDesc (x : ℕ) : List ℕ → List ℕ
  | [] => [x]
  | y :: ys => if y < x then x :: y :: ys else y :: insertDesc x ys

/-- sorted(risk_map.keys(), reverse=True). -/
def sortedKeysDesc (m : List (ℕ × ℚ)) : List ℕ :=
  (m.map Prod.fst).foldr insertDesc []

/-- The risk lookup of check_signal (lines 757-764): exact entry via
dict.get(best_met, 0); if that is not positive, take the first (largest)
tier at or below best_met from the descending key list. -/
def riskLookup (m : List (ℕ × ℚ)) (met : ℕ) : ℚ :=
  let r := (m.lookup met).getD 0
  if r ≤ 0 then
    match (sortedKeysDesc m).find? (fun l => decide (l ≤ met)) with
    | some l => (m.lookup l).getD 0
    | none => r
  else r

/-- Risk assignment with the final non-positive guard of check_signal
(lines 765-767): none means the evaluation returns the no-signal dict. -/
def assignRisk (m : List (ℕ × ℚ)) (met : ℕ) : Option ℚ :=
  let r := riskLookup m met
  if r ≤ 0 then none else some r

/-- Warm-up minimum of check_signal: EMA_SLOW + 10, raised to
EMA_200_PERIOD + 10 when the long-term trend filter is enabled. -/
def minCandles (cfg : Config) : ℕ :=
  if cfg.ema200Enabled then max (cfg.emaSlow + 10) (cfg.ema200Period + 10)
  else cfg.emaSlow + 10

/-- The no-signal dict as initialized in check_signal, before the
total_confluences update. -/
def noSignalBase : SignalDecision := ⟨Signal.NONE, none, 0, 5, [], 0⟩

/-- The number of evaluated confluences: 5, plus MACD when enabled, plus
sentiment when adjustments are supplied and the feature is enabled. -/
def totalConfluences (cfg : Config) (sent : Option SentimentAdj) : ℕ :=
  5 + (if cfg.macdEnabled then 1 else 0) +
    (if sent.isSome ∧ cfg.sentimentAsConfluence then 1 else 0)

/-- The no-signal dict after its total_confluences field is updated. -/
def noSignalTot (cfg : Config) (sent : Option SentimentAdj) : SignalDecision :=
  ⟨Signal.NONE, none, 0, totalConfluences cfg sent, [], 0⟩

/-- The ADX strength filter of check_signal: reject when the filter is
enabled, the current ADX is not NaN, and it is below the threshold. -/
def adxRejects (cfg : Config) (df : List Bar) : Bool :=
  match (if cfg.adxEnabled then (calculateAdx df cfg.adxPeriod).getD (df.length - 2) none
         else none) with
  | some a => decide (a < cfg.adxMinThreshold)
  | none => false

/-- price_above_200 of check_signal: whether the last closed bar closes above
the long EMA; none when the filter is disabled. -/
def priceAbove200 (cfg : Config) (df : List Bar) (lastBar : Bar) : Option Bool :=
  if cfg.ema200Enabled then
    some (decide ((ema200Series cfg df).getD (df.length - 2) 0 < lastBar.close))
  else none

/-- htf_trend of check_signal: evaluated only when the multi-timeframe filter
is enabled and a higher-timeframe frame was supplied. -/
def htfTrendOf (cfg : Config) (dfHtf : Option (List Bar)) : Option HtfTrend :=
  if cfg.mtfEnabled then dfHtf.map (checkHigherTimeframeTrend cfg) else none

/-- buy_met of check_signal. -/
def buyMetOf (cfg : Config) (df : List Bar) (sent : Option SentimentAdj) : ℕ :=
  metCount (buyConfluenceSet cfg df sent)

/-- sell_met of check_signal. -/
def sellMetOf (cfg : Config) (df : List Bar) (sent : Option SentimentAdj) : ℕ :=
  metCount (sellConfluenceSet cfg df sent)

/-- best_signal of check_signal, via the selection chain. -/
def bestSignalOf (cfg : Config) (df : List Bar) (sent : Option SentimentAdj) : Signal :=
  selectBest
    (lookupBool (buyConfluenceSet cfg df sent) CondKey.tendencia)
    (lookupBool (sellConfluenceSet cfg df sent) CondKey.tendencia)
    (buyMetOf cfg df sent) (sellMetOf cfg df sent) (effMinConf cfg sent)

/-- best_met of check_signal (0 when no direction was selected). -/
def bestMetOf (cfg : Config) (df : List Bar) (sent : Option SentimentAdj) : ℕ :=
  match bestSignalOf cfg df sent with
  | Signal.BUY => buyMetOf cfg df sent
  | Signal.SELL => sellMetOf cfg df sent
  | Signal.NONE => 0

/-- best_conditions of check_signal (the empty dict when no direction was
selected). -/
def bestCondsOf (cfg : Config) (df : List Bar) (sent : Option SentimentAdj) :
    List (CondKey × Bool) :=
  match bestSignalOf cfg df sent with
  | Signal.BUY => buyConfluenceSet cfg df sent
  | Signal.SELL => sellConfluenceSet cfg df sent
  | Signal.NONE => []

/-- Confluences required to trade: the effective minimum in tiered mode, the
full count in classic all-or-nothing mode. -/
def requiredConf (cfg : Config) (sent : Option SentimentAdj) : ℕ :=
  if cfg.tieredRiskEnabled then effMinConf cfg sent else totalConfluences cfg sent

/-- Tail of check_signal from the mandatory-trend check onward: the EMA-200
and multi-timeframe vetoes, the minimum-confluence check, the risk lookup
and the final decision dict. -/
def finalizeSignal (noSig : SignalDecision) (bestSignal : Signal) (bestMet : ℕ)
    (bestConds : List (CondKey × Bool)) (pa200 : Option Bool)
    (htfTrend : Option HtfTrend) (required : ℕ) (riskMap : List (ℕ × ℚ))
    (atrLevels : Option AtrLevels) (total : ℕ) : SignalDecision :=
  if lookupBool bestConds CondKey.tendencia = false then noSig
  else if (match pa200 with
           | some b => (decide (bestSignal = Signal.BUY) && !b) ||
               (decide (bestSignal = Signal.SELL) && b)
           | none => false) then noSig
  else if (match htfTrend with
           | some t => decide (¬ t = HtfTrend.UNKNOWN) &&
               ((decide (bestSignal = Signal.BUY) && decide (¬ t = HtfTrend.BULLISH)) ||
                (decide (bestSignal = Signal.SELL) && decide (¬ t = HtfTrend.BEARISH)))
           | none => false) then noSig
  else if bestMet < required then noSig
  else
    match assignRisk riskMap bestMet with
    | none => noSig
    | some r =>
      { signal := bestSignal
        atr_levels := atrLevels
        confluences_met := bestMet
        total_confluences := total
        confluences_detail := bestConds
        risk_percent := r }

/-- Strategy.check_signal(df, df_htf, sentiment_adjustments).  The volatility
and ADX vetoes return the pre-update no-signal dict (total_confluences 5),
the later rejections return the updated one, exactly as in the code; the
row df.iloc[-2] is materialized right after the length guard (which makes it
exist) so the remaining stages can use it. -/
def checkSignal (cfg : Config) (df : List Bar) (dfHtf : Option (List Bar))
    (sent : Option SentimentAdj) : SignalDecision :=
  if df.length < minCandles cfg then noSignalBase
  else
    match df[df.length - 2]? with
    | none => noSignalBase
    | some lastBar =>
      if checkVolatilityFilter cfg df = false then noSignalBase
      else if adxRejects cfg df then noSignalBase
      else
        finalizeSignal (noSignalTot cfg sent) (bestSignalOf cfg df sent)
          (bestMetOf cfg df sent) (bestCondsOf cfg df sent)
          (priceAbove200 cfg df lastBar) (htfTrendOf cfg dfHtf)
          (requiredConf cfg sent) cfg.riskByConfluences
          (getDynamicSlTp cfg df (effAtrSlMult cfg sent) (effAtrTpMult cfg sent))
          (totalConfluences cfg sent)

/-- The instrument metadata dict consumed by RiskManager.calculate_lot_size;
none models a missing key (the code substitutes documented defaults). -/
structure SymbolInfo where
  point : Option ℚ := none
  trade_contract_size : Option ℚ := none
  volume_step : Option ℚ := none
  volume_min : Option ℚ := none
  volume_max : Option ℚ := none
deriving DecidableEq, Repr

/-- RiskManager.calculate_lot_size(balance, symbol_info, sl_distance_price,
risk_percent): risk amount over value per lot, rounded to the broker step,
floored at volume_min, capped at volume_max, then rounded to 2 decimals. -/
def calculateLotSize (cfg : Config) (balance : ℚ) (si : SymbolInfo)
    (slDistancePrice : Option ℚ) (riskPercent : Option ℚ) : ℚ :=
  let actualRisk := riskPercent.getD cfg.riskPercent
  let riskAmount := balance * (actualRisk / 100)
  let point := si.point.getD (1/100)
  let contractSize := si.trade_contract_size.getD 100
  let valuePerLot0 :=
    match slDistancePrice with
    | some d => d * contractSize
    | none => cfg.stopLossPips * (point * 10 * contractSize)
  let valuePerLot := if valuePerLot0 = 0 then cfg.stopLossPips * 1 else valuePerLot0
  let lotSize0 := riskAmount / valuePerLot
  let volumeStep := si.volume_step.getD (1/100)
  let volumeMin := si.volume_min.getD (1/100)
  let volumeMax := si.volume_max.getD 100
  let lotSize1 := max volumeMin ((roundHalfEvenInt (lotSize0 / volumeStep) : ℚ) * volumeStep)
  let lotSize2 := min lotSize1 volumeMax
  roundDec 2 lotSize2

/-- The open-trade dict of BacktestEngine. -/
structure OpenTrade where
  type : Signal
  entry_price : ℚ
  sl : ℚ
  tp : ℚ
  lot_size : ℚ
  entry_time : ℕ
  sl_distance : ℚ
  be_activated : Bool
  confluences : ℕ
  total_confluences : ℕ
  risk_percent : ℚ
deriving DecidableEq, Repr

/-- A trade record appended by BacktestEngine._close_trade; the pnl and
pnl_pips fields are the rounded reporting values of the code. -/
structure TradeRecord where
  type : Signal
  entry_price : ℚ
  exit_price : ℚ
  entry_time : ℕ
  lot_size : ℚ
  pnl : ℚ
  pnl_pips : ℚ
  reason : String
  be_activated : Bool
  confluences : ℕ
  total_confluences : ℕ
  risk_percent : ℚ
deriving DecidableEq, Repr

/-- Mutable state of BacktestEngine during run. -/
structure BTState where
  balance : ℚ
  equity : List ℚ
  trades : List TradeRecord
  openTrade : Option OpenTrade
deriving DecidableEq, Repr

/-- Exact profit and loss of a recorded trade, recomputed from the entry and
exit prices and lot size stored (unrounded) in the record; the record's pnl
field stores this value rounded to 2 decimals. -/
def tradePnl (t : TradeRecord) : ℚ :=
  (if t.type = Signal.BUY then t.exit_price - t.entry_price
   else t.entry_price - t.exit_price) * t.lot_size * 100

/-- BacktestEngine._close_trade: realize the P&L into the balance and append
the trade record (contract size fixed to 100 in the simulator). -/
def closeTrade (st : BTState) (exitPrice : ℚ) (reason : String) : BTState :=
  match st.openTrade with
  | none => st
  | some tr =>
    let pnlPerUnit :=
      if tr.type = Signal.BUY then exitPrice - tr.entry_price
      else tr.entry_price - exitPrice
    let pnl := pnlPerUnit * tr.lot_size * 100
    { balance := st.balance + pnl
      equity := st.equity
      trades := st.trades ++
        [{ type := tr.type
           entry_price := tr.entry_price
           exit_price := exitPrice
           entry_time := tr.entry_time
           lot_size := tr.lot_size
           pnl := roundDec 2 pnl
           pnl_pips := roundDec 1 (pnlPerUnit / (1/10))
           reason := reason
           be_activated := tr.be_activated
           confluences := tr.confluences
           total_confluences := tr.total_confluences
           risk_percent := tr.risk_percent }]
      openTrade := none }

/-- BacktestEngine._manage_trade: stop-loss touch, take-profit touch, else
the one-way break-even arming. -/
def manageTrade (cfg : Config) (st : BTState) (bar : Bar) : BTState :=
  match st.openTrade with
  | none => st
  | some tr =>
    if tr.type = Signal.BUY then
      if bar.low ≤ tr.sl then closeTrade st tr.sl "SL"
      else if tr.tp ≤ bar.high then closeTrade st tr.tp "TP"
      else if tr.be_activated = false ∧
          cfg.breakEvenPips * (1/100) * 10 ≤ bar.high - tr.entry_price then
        { st with openTrade := some { tr with sl := tr.entry_price + 1/10, be_activated := true } }
      else st
    else
      if tr.sl ≤ bar.high then closeTrade st tr.sl "SL"
      else if bar.low ≤ tr.tp then closeTrade st tr.tp "TP"
      else if tr.be_activated = false ∧
          cfg.breakEvenPips * (1/100) * 10 ≤ tr.entry_price - bar.low then
        { st with openTrade := some { tr with sl := tr.entry_price - 1/10, be_activated := true } }
      else st

/-- BacktestEngine._unrealized_pnl at a bar's close. -/
def unrealizedPnl (st : BTState) (bar : Bar) : ℚ :=
  match st.openTrade with
  | none => 0
  | some tr =>
    (if tr.type = Signal.BUY then bar.close - tr.entry_price
     else tr.entry_price - bar.close) * tr.lot_size * 100

/-- BacktestEngine._check_entry: evaluate check_signal on the window and, on
a signal, open a simulated position sized from the decision's risk percent. -/
def checkEntry (cfg : Config) (sent : Option SentimentAdj) (st : BTState)
    (window : List Bar) (bar : Bar) (htfW : Option (List Bar)) : BTState :=
  let res := checkSignal cfg window htfW sent
  if res.signal = Signal.NONE then st
  else
    let entry := bar.close
    let slD := match res.atr_levels with
      | some a => a.sl_distance
      | none => cfg.stopLossPips * (1/100) * 10
    let tpD := match res.atr_levels with
      | some a => a.tp_distance
      | none => cfg.takeProfitPips * (1/100) * 10
    let riskAmount := st.balance * (res.risk_percent / 100)
    let valuePerLot := slD * 100
    let lotSize0 := if 0 < valuePerLot then riskAmount / valuePerLot else 1/100
    { st with openTrade := some (
      { type := res.signal
        entry_price := entry
        sl := if res.signal = Signal.BUY then entry - slD else entry + slD
        tp := if res.signal = Signal.BUY then entry + tpD else entry - tpD
        lot_size := max (1/100) (roundDec 2 lotSize0)
        entry_time := bar.time
        sl_distance := slD
        be_activated := false
        confluences := res.confluences_met
        total_confluences := res.total_confluences
        risk_percent := res.risk_percent }) }

/-- pandas resample('4h') bucket start of an epoch-seconds timestamp; the
default origin (start of the first day) is midnight-aligned and a day is a
whole number of 4-hour buckets, so buckets are epoch-aligned. -/
def h4BucketStart (t : ℕ) : ℕ := t / 14400 * 14400

/-- BacktestEngine._resample_to_h4 on a chronologically ordered frame:
open = first, high = max, low = min, close = last, volume = sum per 4-hour
bucket (built newest-first, then reversed). -/
def resampleToH4 (df : List Bar) : List Bar :=
  (df.foldl
    (fun acc b =>
      match acc with
      | [] => [⟨h4BucketStart b.time, b.opn, b.high, b.low, b.close, b.vol⟩]
      | a :: rest =>
        if a.time = h4BucketStart b.time then
          ⟨a.time, a.opn, max a.high b.high, min a.low b.low, b.close, a.vol + b.vol⟩ :: rest
        else ⟨h4BucketStart b.time, b.opn, b.high, b.low, b.close, b.vol⟩ :: a :: rest)
    []).reverse

/-- BacktestEngine.run warm-up: EMA_SLOW + 20, raised to EMA_200_PERIOD + 20
when the long-term trend filter is enabled. -/
def minBars (cfg : Config) : ℕ :=
  if cfg.ema200Enabled then max (cfg.emaSlow + 20) (cfg.ema200Period + 20)
  else cfg.emaSlow + 20

/-- Initial backtest state: the equity curve starts with the initial
balance. -/
def btInit (initial : ℚ) : BTState := ⟨initial, [initial], [], none⟩

/-- The higher-timeframe window handed to check_signal inside the loop: the
resampled frame restricted to buckets at or before the current bar's time,
or none when that restriction is empty (or multi-timeframe is off). -/
def htfWindow (h4 : Option (List Bar)) (bar : Bar) : Option (List Bar) :=
  match h4 with
  | some l =>
    let fl := l.filter (fun b => b.time ≤ bar.time)
    if fl.isEmpty then none else some fl
  | none => none

/-- The entry half of the loop body: when no position is open after trade
management, run _check_entry on the window ending at bar index i. -/
def btEntryStage (cfg : Config) (sent : Option SentimentAdj) (df : List Bar)
    (h4 : Option (List Bar)) (st1 : BTState) (i : ℕ) : BTState :=
  if st1.openTrade.isSome then st1
  else checkEntry cfg sent st1 (df.take (i + 1)) (df.getD i defaultBar)
    (htfWindow h4 (df.getD i defaultBar))

/-- The equity sampling at the end of each loop iteration. -/
def btSample (st : BTState) (bar : Bar) : BTState :=
  { st with equity := st.equity ++ [st.balance + unrealizedPnl st bar] }

/-- One iteration of the BacktestEngine.run loop at bar index i: manage an
open position, otherwise look for an entry on the window ending at i (with
the higher-timeframe slice up to the current time), then sample equity. -/
def btStep (cfg : Config) (sent : Option SentimentAdj) (df : List Bar)
    (h4 : Option (List Bar)) (st : BTState) (i : ℕ) : BTState :=
  btSample
    (btEntryStage cfg sent df h4
      (if st.openTrade.isSome then manageTrade cfg st (df.getD i defaultBar) else st) i)
    (df.getD i defaultBar)

/-- BacktestEngine.run: reset state, abort below the warm-up minimum, iterate
bar-by-bar from the warm-up index, and force-close any open position at the
final bar's close. -/
def btRun (cfg : Config) (sent : Option SentimentAdj) (initial : ℚ)
    (df : List Bar) : BTState :=
  if df.length < minBars cfg then btInit initial
  else
    let h4 := if cfg.mtfEnabled then some (resampleToH4 df) else none
    let stN := (List.range' (minBars cfg) (df.length - minBars cfg)).foldl
      (btStep cfg sent df h4) (btInit initial)
    match stN.openTrade with
    | some _ => closeTrade stN ((df.getLast?.map (·.close)).getD 0) "FIN_BACKTEST"
    | none => stN

/-- Seventeen-bar frame with a confirmed swing low (value lo) at index 5, a
confirmed swing high (value hi) at index 10, and close c on the last closed
bar (index 15); all other bars are flat at high 95 / low 91 / close 93. -/
def mkFibDf (hi lo c : ℚ) : List Bar :=
  (List.range 17).map fun j =>
    if j = 5 then ⟨3600 * j, 93, 95, lo, 93, 1⟩
    else if j = 10 then ⟨3600 * j, 93, hi, 91, 93, 1⟩
    else if j = 15 then ⟨3600 * j, 93, 95, 91, c, 1⟩
    else ⟨3600 * j, 93, 95, 91, 93, 1⟩

/-- An n-bar frame, flat at high 95 / low 91 / close 93 except that the
last closed bar (index n-2) carries the given high, low and close; used to
exercise the liquidity-sweep detectors against the structural window of the
preceding bars. -/
def mkSweepDf (n : ℕ) (hN lN cN : ℚ) : List Bar :=
  (List.range n).map fun j =>
    if j = n - 2 then ⟨3600 * j, 93, hN, lN, cN, 1⟩
    else ⟨3600 * j, 93, 95, 91, 93, 1⟩

/-- Flat n-bar frame used as a backtest input. -/
def mkFlatDf (n : ℕ) : List Bar :=
  (List.range n).map fun j => ⟨3600 * j, 93, 95, 91, 93, 1⟩

/-- Reading a cell of a range-map series (how all boolean indicator columns
are built) gives the generating function at in-range indices. -/
theorem range_map_getD {α : Type} (n : ℕ) (f : ℕ → α) (i : ℕ) (d : α)
    (h : i < n) : ((List.range n).map f).getD i d = f i := by
  rw [List.getD_eq_getElem?_getD, List.getElem?_map, List.getElem?_range h]
  rfl

/-- A defined cell of a zipWith series comes from defined cells of the two
input series. -/
theorem zipWith_getElem?_some {α β γ : Type} {f : α → β → γ} :
    ∀ (as : List α) (bs : List β) (i : ℕ) (c : γ),
      (List.zipWith f as bs)[i]? = some c →
      ∃ a b, as[i]? = some a ∧ bs[i]? = some b ∧ c = f a b := by
  intro as
  induction as with
  | nil => intro bs i c h; simp at h
  | cons a as ih =>
    intro bs i c h
    cases bs with
    | nil => simp at h
    | cons b bs =>
      cases i with
      | zero =>
        simp only [List.zipWith_cons_cons, List.getElem?_cons_zero, Option.some.injEq] at h
        exact ⟨a, b, by simp, by simp, h.symm⟩
      | succ j =>
        simp only [List.zipWith_cons_cons, List.getElem?_cons_succ] at h ⊢
        exact ih bs j c h

/-- Rat.floor agrees with the floor of the ordered-field structure. -/
theorem ratFloor_eq (x : ℚ) : x.floor = ⌊x⌋ := by
  rw [Rat.floor_def', Rat.floor_def]

/-- Half-even rounding never exceeds the floor plus one. -/
theorem roundHalfEvenInt_le (x : ℚ) : roundHalfEvenInt x ≤ ⌊x⌋ + 1 := by
  simp only [roundHalfEvenInt, ratFloor_eq]
  split_ifs <;> omega

theorem le_roundHalfEvenInt (x : ℚ) : ⌊x⌋ ≤ roundHalfEvenInt x := by
  simp only [roundHalfEvenInt, ratFloor_eq]
  split_ifs <;> omega

theorem roundHalfEvenInt_mono {x y : ℚ} (h : x ≤ y) :
    roundHalfEvenInt x ≤ roundHalfEvenInt y := by
  have hf : ⌊x⌋ ≤ ⌊y⌋ := Int.floor_le_floor h
  by_cases hlt : ⌊x⌋ < ⌊y⌋
  · calc roundHalfEvenInt x ≤ ⌊x⌋ + 1 := roundHalfEvenInt_le x
      _ ≤ ⌊y⌋ := by omega
      _ ≤ roundHalfEvenInt y := le_roundHalfEvenInt y
  · have heq : ⌊x⌋ = ⌊y⌋ := le_antisymm hf (by omega)
    have hr : x - (⌊x⌋ : ℚ) ≤ y - (⌊y⌋ : ℚ) := by
      rw [← heq]; linarith
    simp only [roundHalfEvenInt, ratFloor_eq, ← heq]
    split_ifs <;> first | omega | linarith

theorem roundHalfEvenInt_intCast (z : ℤ) : roundHalfEvenInt (z : ℚ) = z := by
  simp only [roundHalfEvenInt, ratFloor_eq, Int.floor_intCast, sub_self]
  norm_num

theorem roundDec_mono (d : ℕ) {x y : ℚ} (h : x ≤ y) : roundDec d x ≤ roundDec d y := by
  unfold roundDec
  have h10 : (0 : ℚ) < (10 : ℚ) ^ d := by positivity
  have hm : roundHalfEvenInt (x * (10 : ℚ) ^ d) ≤ roundHalfEvenInt (y * (10 : ℚ) ^ d) :=
    roundHalfEvenInt_mono (mul_le_mul_of_nonneg_right h (le_of_lt h10))
  exact div_le_div_of_nonneg_right (by exact_mod_cast hm) (le_of_lt h10)

theorem roundDec_int_div (d : ℕ) (z : ℤ) :
    roundDec d ((z : ℚ) / (10 : ℚ) ^ d) = (z : ℚ) / (10 : ℚ) ^ d := by
  unfold roundDec
  rw [div_mul_cancel₀ _ (by positivity : ((10 : ℚ) ^ d) ≠ 0), roundHalfEvenInt_intCast]

/-- C1: for any bar sequence shorter than the warm-up minimum (slow-EMA
period + 10, raised to the long-EMA period + 10 when the long-term trend
filter is enabled), check_signal returns signal NONE with confluences_met 0,
whatever the higher-timeframe data and sentiment adjustments are. -/
theorem spec_c1_insufficient_history_none (cfg : Config) (df : List Bar)
    (dfHtf : Option (List Bar)) (sent : Option SentimentAdj)
    (h : df.length < minCandles cfg) :
    (checkSignal cfg df dfHtf sent).signal = Signal.NONE ∧
    (checkSignal cfg df dfHtf sent).confluences_met = 0 := by
  unfold checkSignal
  rw [if_pos h]
  exact ⟨rfl, rfl⟩

/-- Witness for C1 at the repository configuration and an empty frame. -/
theorem spec_c1_witness :
    ([] : List Bar).length < minCandles repoConfig ∧
    (checkSignal repoConfig [] none none).signal = Signal.NONE ∧
    (checkSignal repoConfig [] none none).confluences_met = 0 :=
  ⟨by decide, spec_c1_insufficient_history_none repoConfig [] none none (by decide)⟩

/-- C4: over the selection chain used by check_signal, a tie in the
confluence counts under a bullish trend selects BUY, and SELL can only be
selected when its count strictly exceeds BUY's or, via the
minimum-threshold fallback, when the bullish trend condition fails; the
last conjunct shows the two trend flags really are mutually exclusive in
check_signal (the two-valued trend column makes the SELL flag the negation
of the BUY flag), justifying the shape of the first two. -/
theorem spec_c4_tie_break (bt : Bool) (bm sm mc : ℕ) :
    (bt = true → bm = sm → selectBest bt (!bt) bm sm mc = Signal.BUY) ∧
    (selectBest bt (!bt) bm sm mc = Signal.SELL →
      bt = false ∧ (bm < sm ∨ mc ≤ sm)) ∧
    (∀ (cfg : Config) (df : List Bar) (sent2 : Option SentimentAdj),
      lookupBool (sellConfluenceSet cfg df sent2) CondKey.tendencia =
        !(lookupBool (buyConfluenceSet cfg df sent2) CondKey.tendencia)) := by
  refine ⟨?_, ?_, ?_⟩
  · intro hb he
    subst hb
    simp [selectBest, he]
  · intro hs
    cases bt with
    | true =>
      exfalso
      unfold selectBest at hs
      split_ifs at hs <;> simp_all
    | false =>
      refine ⟨rfl, ?_⟩
      unfold selectBest at hs
      split_ifs at hs with h1 h2 h3 h4 <;> simp_all
  · intro cfg df sent2
    have hb : lookupBool (buyConfluenceSet cfg df sent2) CondKey.tendencia =
        decide ((trendSeries cfg df).getD (df.length - 2) Trend.BEARISH = Trend.BULLISH) := rfl
    have hs : lookupBool (sellConfluenceSet cfg df sent2) CondKey.tendencia =
        decide ((trendSeries cfg df).getD (df.length - 2) Trend.BEARISH = Trend.BEARISH) := rfl
    rw [hb, hs]
    cases (trendSeries cfg df).getD (df.length - 2) Trend.BEARISH <;> rfl

/-- Witness for C4: a 3-3 tie with bullish trend selects BUY. -/
theorem spec_c4_witness : selectBest true (!true) 3 3 4 = Signal.BUY :=
  (spec_c4_tie_break true 3 3 4).1 rfl rfl

/-- C2 counterexample: on a concrete 212-bar frame (long enough for a full
check_signal evaluation) whose last closed bar sweeps the structural high
(high above the maximum of the 15 preceding highs, close back below it) the
condition the claim describes holds, yet the liquidity entry of the BUY
confluence set is false - the BUY set tests the sweep of the structural low
instead. -/
theorem spec_c2_counterexample :
    minCandles repoConfig ≤ (mkSweepDf 212 97 91 94).length ∧
    (detectSweepHigh repoConfig.liquidityLookback (mkSweepDf 212 97 91 94)).getD
      ((mkSweepDf 212 97 91 94).length - 2) false = true ∧
    (buyConfluenceSet repoConfig (mkSweepDf 212 97 91 94) none).lookup CondKey.liquidity =
      some false := by decide

/-- C3 counterexample: on a concrete valid BUY retracement leg (swing low 90
at index 5, swing high 100 at index 10) with the last closed close exactly
at the older extreme (the swing low, 90), the returned fib_level is 1, not
the 0 the claim requires at the older extreme. -/
theorem spec_c3_counterexample :
    ((fibOte (mkFibDf 100 90 90) Signal.BUY).bind FibResult.swing_low = some 90) ∧
    (lastClosedClose (mkFibDf 100 90 90) = some 90) ∧
    ((fibOte (mkFibDf 100 90 90) Signal.BUY).bind FibResult.fib_level = some 1) ∧
    ((1 : ℚ) = 0 → False) := by decide

/-- C6 counterexample: a concrete valid BUY leg (swing low 89.9749, swing
high 99.9749) whose last closed close 93.7949 equals the exact 61.8 percent
level, so in_ote is true, yet the returned zone_high is the rounded 93.79
and the close lies strictly above it. -/
theorem spec_c6_counterexample :
    ((fibOte (mkFibDf (999749/10000) (899749/10000) (937949/10000)) Signal.BUY).map
      FibResult.in_ote = some true) ∧
    ((fibOte (mkFibDf (999749/10000) (899749/10000) (937949/10000)) Signal.BUY).bind
      FibResult.zone_high = some ((9379 : ℚ)/100)) ∧
    (lastClosedClose (mkFibDf (999749/10000) (899749/10000) (937949/10000)) =
      some ((937949 : ℚ)/10000)) ∧
    (((937949 : ℚ)/10000 ≤ (9379 : ℚ)/100) → False) := by decide

/-- C9 counterexample: with volume_step 0.01, volume_min 0.004 and
volume_max 100, a tiny raw lot rounds to 0, the volume_min floor yields
0.004, and the final 2-decimal rounding returns 0 - strictly below
volume_min, so the returned size does not lie in [volume_min, volume_max]. -/
theorem spec_c9_counterexample :
    calculateLotSize repoConfig 1000
      ⟨some (1/100), some 100, some (1/100), some (1/250), some 100⟩
      (some 10000) (some (1/2)) = 0 ∧
    ((1/250 : ℚ) ≤ calculateLotSize repoConfig 1000
      ⟨some (1/100), some 100, some (1/100), some (1/250), some 100⟩
      (some 10000) (some (1/2)) → False) := by decide

/-- C5: at the configured risk table, whenever the confluence count has no
exact entry with positive risk, the assigned risk is that of the closest
lower tier (the first key at or below the count in the descending key list)
and is positive when such a tier exists; when no tier lies at or below the
count, the risk assignment is empty and check_signal returns the no-signal
dict. -/
theorem spec_c5_risk_fallback (met : ℕ)
    (hnoexact : ∀ r : ℚ, repoRiskMap.lookup met = some r → r ≤ 0) :
    (∀ l, (sortedKeysDesc repoRiskMap).find? (fun k => decide (k ≤ met)) = some l →
        assignRisk repoRiskMap met = some ((repoRiskMap.lookup l).getD 0) ∧
        0 < (repoRiskMap.lookup l).getD 0) ∧
    ((sortedKeysDesc repoRiskMap).find? (fun k => decide (k ≤ met)) = none →
      assignRisk repoRiskMap met = none) := by
  have hcase : met < 3 ∨ (3 ≤ met ∧ met < 8) ∨ 8 ≤ met := by omega
  rcases hcase with hlo | hmid | hhi
  · interval_cases met
    · have hfindn : (sortedKeysDesc repoRiskMap).find? (fun k => decide (k ≤ 0)) = none := by
        decide
      exact ⟨fun l hl => absurd (hfindn ▸ hl) (by simp), fun _ => by decide⟩
    · have hfindn : (sortedKeysDesc repoRiskMap).find? (fun k => decide (k ≤ 1)) = none := by
        decide
      exact ⟨fun l hl => absurd (hfindn ▸ hl) (by simp), fun _ => by decide⟩
    · have hfindn : (sortedKeysDesc repoRiskMap).find? (fun k => decide (k ≤ 2)) = none := by
        decide
      exact ⟨fun l hl => absurd (hfindn ▸ hl) (by simp), fun _ => by decide⟩
  · exfalso
    obtain ⟨h3, h8⟩ := hmid
    interval_cases met
    · exact absurd (hnoexact (3/20) (by rfl)) (by norm_num)
    · exact absurd (hnoexact (3/10) (by rfl)) (by norm_num)
    · exact absurd (hnoexact (1/2) (by rfl)) (by norm_num)
    · exact absurd (hnoexact (3/5) (by rfl)) (by norm_num)
    · exact absurd (hnoexact (3/4) (by rfl)) (by norm_num)
  · have hsk : sortedKeysDesc repoRiskMap = [7, 6, 5, 4, 3] := by rfl
    have h7 : (decide (7 ≤ met)) = true := decide_eq_true (by omega)
    have hfind : (sortedKeysDesc repoRiskMap).find? (fun k => decide (k ≤ met)) = some 7 := by
      rw [hsk]
      exact List.find?_cons_of_pos _ h7
    have hb7 : (met == 7) = false := by simp; omega
    have hb6 : (met == 6) = false := by simp; omega
    have hb5 : (met == 5) = false := by simp; omega
    have hb4 : (met == 4) = false := by simp; omega
    have hb3 : (met == 3) = false := by simp; omega
    have hlk : repoRiskMap.lookup met = none := by
      simp [repoRiskMap, List.lookup, hb7, hb6, hb5, hb4, hb3]
    have hrisk : riskLookup repoRiskMap met = 3/4 := by
      unfold riskLookup
      rw [hlk]
      simp only [Option.getD_none]
      rw [if_pos (le_refl (0 : ℚ)), hfind]
      rfl
    have hassign : assignRisk repoRiskMap met = some (3/4) := by
      unfold assignRisk
      rw [hrisk, if_neg (by norm_num)]
    constructor
    · intro l hl
      rw [hfind] at hl
      injection hl with hl7
      subst hl7
      exact ⟨by rw [hassign]; rfl, by norm_num [repoRiskMap]⟩
    · intro hnone
      rw [hfind] at hnone
      exact absurd hnone (by simp)

/-- Witness for C5 at confluence count 8: no exact tier, fallback to tier 7
with risk 0.75. -/
theorem spec_c5_witness :
    (∀ l, (sortedKeysDesc repoRiskMap).find? (fun k => decide (k ≤ 8)) = some l →
        assignRisk repoRiskMap 8 = some ((repoRiskMap.lookup l).getD 0) ∧
        0 < (repoRiskMap.lookup l).getD 0) ∧
    ((sortedKeysDesc repoRiskMap).find? (fun k => decide (k ≤ 8)) = none →
      assignRisk repoRiskMap 8 = none) :=
  spec_c5_risk_fallback 8
    (fun r h => absurd ((show List.lookup 8 repoRiskMap = none from rfl) ▸ h) (by simp))

/-- C7: every cell of the RSI series lies in [0, 100], and at every index
where the smoothed average loss is defined (warm-up elapsed) and exactly
zero the RSI is exactly 100; the computation is a total function of the
price series, so no division by zero can raise. -/
theorem spec_c7_rsi_bounds (prices : List ℚ) (period t : ℕ) (x : ℚ)
    (hx : (calculateRsi prices period)[t]? = some x) :
    0 ≤ x ∧ x ≤ 100 ∧
    ((rsiAvgLoss prices period)[t]? = some (some 0) → x = 100) := by
  obtain ⟨g, l, hg, hl, hxv⟩ :=
    zipWith_getElem?_some (rsiAvgGain prices period) (rsiAvgLoss prices period) t x hx
  have hlo : 0 ≤ clipQ 0 100 (rsiRaw g l) := le_max_left 0 _
  have hhi : clipQ 0 100 (rsiRaw g l) ≤ 100 := by
    apply max_le
    · norm_num
    · exact min_le_right _ _
  refine ⟨hxv ▸ hlo, hxv ▸ hhi, ?_⟩
  intro hzero
  rw [hl] at hzero
  injection hzero with hzero
  subst hzero
  cases g with
  | none => rw [hxv]; simp [rsiRaw, clipQ]
  | some gv => rw [hxv]; simp [rsiRaw, clipQ]

/-- Witness for C7: a strictly rising three-price series with period 2 has
average loss 0 at index 2 and RSI exactly 100 there. -/
theorem spec_c7_witness :
    0 ≤ (100 : ℚ) ∧ (100 : ℚ) ≤ 100 ∧
    ((rsiAvgLoss [1, 2, 3] 2)[2]? = some (some 0) → (100 : ℚ) = 100) :=
  spec_c7_rsi_bounds [1, 2, 3] 2 2 100 (by decide)

/-- C2 amended: the liquidity entry of the BUY confluence set is exactly the
structural-low sweep flag of the last closed bar: it holds iff that bar's
index is at least the lookback and its low breaks strictly below the
minimum low of the preceding lookback bars while its close recovers
strictly above it. -/
theorem spec_c2_buy_liquidity_amended (cfg : Config) (df : List Bar)
    (sent : Option SentimentAdj) (h2 : 2 ≤ df.length) :
    (buyConfluenceSet cfg df sent).lookup CondKey.liquidity =
      some ((detectSweepLow cfg.liquidityLookback df).getD (df.length - 2) false) ∧
    ((detectSweepLow cfg.liquidityLookback df).getD (df.length - 2) false = true ↔
      (cfg.liquidityLookback ≤ df.length - 2 ∧
        ∃ m, listMin? (((df.drop (df.length - 2 - cfg.liquidityLookback)).take
            cfg.liquidityLookback).map (·.low)) = some m ∧
          (df.getD (df.length - 2) defaultBar).low < m ∧
          m < (df.getD (df.length - 2) defaultBar).close)) := by
  constructor
  · rfl
  · have hi : df.length - 2 < df.length := by omega
    unfold detectSweepLow
    rw [range_map_getD _ _ _ _ hi]
    split_ifs with hlb
    · cases hm : listMin? (((df.drop (df.length - 2 - cfg.liquidityLookback)).take
          cfg.liquidityLookback).map (·.low)) with
      | none => simp [hm]
      | some m =>
        constructor
        · intro hd
          exact ⟨hlb, m, rfl, (of_decide_eq_true hd).1, (of_decide_eq_true hd).2⟩
        · rintro ⟨-, m2, hm2, ha, hb⟩
          injection hm2 with hm2
          subst hm2
          exact decide_eq_true ⟨ha, hb⟩
    · simp [hlb]

/-- Witness for C2 at a concrete frame whose last closed bar does sweep the
structural low (low 89 under the minimum 91, close 93.5 back above it). -/
theorem spec_c2_witness :
    (buyConfluenceSet repoConfig (mkSweepDf 17 95 89 (187/2)) none).lookup CondKey.liquidity =
      some ((detectSweepLow repoConfig.liquidityLookback
        (mkSweepDf 17 95 89 (187/2))).getD ((mkSweepDf 17 95 89 (187/2)).length - 2) false) ∧
    ((detectSweepLow repoConfig.liquidityLookback
        (mkSweepDf 17 95 89 (187/2))).getD ((mkSweepDf 17 95 89 (187/2)).length - 2) false = true ↔
      (repoConfig.liquidityLookback ≤ (mkSweepDf 17 95 89 (187/2)).length - 2 ∧
        ∃ m, listMin? ((((mkSweepDf 17 95 89 (187/2)).drop
            ((mkSweepDf 17 95 89 (187/2)).length - 2 - repoConfig.liquidityLookback)).take
            repoConfig.liquidityLookback).map (·.low)) = some m ∧
          ((mkSweepDf 17 95 89 (187/2)).getD ((mkSweepDf 17 95 89 (187/2)).length - 2)
            defaultBar).low < m ∧
          m < ((mkSweepDf 17 95 89 (187/2)).getD ((mkSweepDf 17 95 89 (187/2)).length - 2)
            defaultBar).close)) :=
  spec_c2_buy_liquidity_amended repoConfig (mkSweepDf 17 95 89 (187/2)) none (by decide)

/-- C3 amended: on a valid retracement leg the returned fib_level is the
3-decimal rounding of the normalized distance of the last closed close from
the NEWER extreme of the leg: for BUY (swing high more recent) it is 0 at
the swing high and 1 at the swing low, for SELL (swing low more recent) it
is 0 at the swing low and 1 at the swing high, interpolating linearly in
between - the opposite orientation to the claim. -/
theorem spec_c3_fib_level_amended (df : List Bar) (r : FibResult) (f h lo p : ℚ)
    (hp : lastClosedClose df = some p) :
    (fibOte df Signal.BUY = some r → r.fib_level = some f → r.swing_high = some h →
      r.swing_low = some lo →
      f = roundDec 3 ((h - p) / (h - lo)) ∧ (p = h → f = 0) ∧ (p = lo → f = 1)) ∧
    (fibOte df Signal.SELL = some r → r.fib_level = some f → r.swing_high = some h →
      r.swing_low = some lo →
      f = roundDec 3 ((p - lo) / (h - lo)) ∧ (p = lo → f = 0) ∧ (p = h → f = 1)) := by
  have hr0 : roundDec 3 (0 : ℚ) = 0 := by decide
  have hr1 : roundDec 3 (1 : ℚ) = 1 := by decide
  constructor
  · intro hfib hlev hsh hsl
    unfold fibOte at hfib
    rw [hp] at hfib
    simp only [Option.map_some'] at hfib
    injection hfib with hfib
    subst hfib
    rcases hsw : getLastSwingPoints df with ⟨sh?, sl?⟩
    rw [hsw] at hlev hsh hsl
    cases sh? with
    | none => simp [fibOteCore, fibInvalid] at hlev
    | some ph =>
      cases sl? with
      | none => simp [fibOteCore, fibInvalid] at hlev
      | some pl =>
        obtain ⟨ih, hv⟩ := ph
        obtain ⟨il, lv⟩ := pl
        simp only [fibOteCore] at hlev hsh hsl
        simp only [if_true] at hlev hsh hsl
        split_ifs at hlev hsh hsl with ht hrg
        · simp [fibInvalid] at hlev
        · simp [fibInvalid] at hlev
        · injection hlev with hlev
          injection hsh with hsh
          injection hsl with hsl
          subst hsh
          subst hsl
          have hne : hv - lv ≠ 0 := by
            intro hzero
            exact hrg (le_of_eq hzero)
          refine ⟨hlev.symm, ?_, ?_⟩
          · intro hph
            rw [← hlev, hph, sub_self, zero_div, hr0]
          · intro hpl
            rw [← hlev, hpl, div_self hne, hr1]
  · intro hfib hlev hsh hsl
    unfold fibOte at hfib
    rw [hp] at hfib
    simp only [Option.map_some'] at hfib
    injection hfib with hfib
    subst hfib
    rcases hsw : getLastSwingPoints df with ⟨sh?, sl?⟩
    rw [hsw] at hlev hsh hsl
    cases sh? with
    | none => simp [fibOteCore, fibInvalid] at hlev
    | some ph =>
      cases sl? with
      | none => simp [fibOteCore, fibInvalid] at hlev
      | some pl =>
        obtain ⟨ih, hv⟩ := ph
        obtain ⟨il, lv⟩ := pl
        simp only [fibOteCore] at hlev hsh hsl
        rw [if_neg (by decide : ¬ Signal.SELL = Signal.BUY)] at hlev hsh hsl
        split_ifs at hlev hsh hsl with ht hrg
        · simp [fibInvalid] at hlev
        · simp [fibInvalid] at hlev
        · injection hlev with hlev
          injection hsh with hsh
          injection hsl with hsl
          subst hsh
          subst hsl
          have hne : hv - lv ≠ 0 := by
            intro hzero
            exact hrg (le_of_eq hzero)
          refine ⟨hlev.symm, ?_, ?_⟩
          · intro hpl
            rw [← hlev, hpl, sub_self, zero_div, hr0]
          · intro hph
            rw [← hlev, hph]
            rw [div_self hne, hr1]

/-- Witness for C3 at a concrete valid BUY leg (high 100 newer, low 90
older) with last closed close 95: the level is the rounded midpoint 0.5. -/
theorem spec_c3_witness :
    (1/2 : ℚ) = roundDec 3 ((100 - 95) / (100 - 90)) ∧
    ((95 : ℚ) = 100 → (1/2 : ℚ) = 0) ∧ ((95 : ℚ) = 90 → (1/2 : ℚ) = 1) :=
  (spec_c3_fib_level_amended (mkFibDf 100 90 95)
    ⟨false, some (1/2), some (4607/50), some (4691/50), some 100, some 90⟩
    (1/2) 100 90 95 (by decide)).1 (by decide) (by decide) (by decide) (by decide)

/-- C6 amended: whenever in_ote is true there are exact zone levels zl ≤ zh
containing the last closed close; the returned bounds are their 2-decimal
roundings (hence still ordered), but the close itself is only guaranteed to
lie between the exact levels, not the rounded ones. -/
theorem spec_c6_zone_amended (df : List Bar) (dir : Signal) (r : FibResult)
    (hfib : fibOte df dir = some r) (hin : r.in_ote = true) :
    ∃ zl zh p, lastClosedClose df = some p ∧
      r.zone_low = some (roundDec 2 zl) ∧ r.zone_high = some (roundDec 2 zh) ∧
      zl ≤ zh ∧ roundDec 2 zl ≤ roundDec 2 zh ∧ zl ≤ p ∧ p ≤ zh := by
  unfold fibOte at hfib
  rw [Option.map_eq_some'] at hfib
  obtain ⟨p, hp, hcore⟩ := hfib
  subst hcore
  rcases hsw : getLastSwingPoints df with ⟨sh?, sl?⟩
  rw [hsw] at hin
  cases sh? with
  | none => cases sl? <;> simp [fibOteCore, fibInvalid] at hin
  | some ph =>
    cases sl? with
    | none => simp [fibOteCore, fibInvalid] at hin
    | some pl =>
      obtain ⟨ih, hv⟩ := ph
      obtain ⟨il, lv⟩ := pl
      simp only [fibOteCore] at hin ⊢
      by_cases hdir : dir = Signal.BUY
      · rw [if_pos hdir] at hin ⊢
        split_ifs at hin ⊢ with ht hrg
        · simp [fibInvalid] at hin
        · simp [fibInvalid] at hin
        · have hpos : 0 < hv - lv := not_le.1 hrg
          have hzz : hv - (hv - lv) * (786/1000) ≤ hv - (hv - lv) * (618/1000) := by
            nlinarith
          have hmem := of_decide_eq_true hin
          exact ⟨hv - (hv - lv) * (786/1000), hv - (hv - lv) * (618/1000), p, hp,
            rfl, rfl, hzz, roundDec_mono 2 hzz, hmem.1, hmem.2⟩
      · rw [if_neg hdir] at hin ⊢
        split_ifs at hin ⊢ with ht hrg
        · simp [fibInvalid] at hin
        · simp [fibInvalid] at hin
        · have hpos : 0 < hv - lv := not_le.1 hrg
          have hzz : lv + (hv - lv) * (618/1000) ≤ lv + (hv - lv) * (786/1000) := by
            nlinarith
          have hmem := of_decide_eq_true hin
          exact ⟨lv + (hv - lv) * (618/1000), lv + (hv - lv) * (786/1000), p, hp,
            rfl, rfl, hzz, roundDec_mono 2 hzz, hmem.1, hmem.2⟩

/-- Witness for C6 at a concrete in-zone BUY evaluation (leg 90 to 100, last
closed close 93, zone 92.14 to 93.82). -/
theorem spec_c6_witness :
    ∃ zl zh p, lastClosedClose (mkFibDf 100 90 93) = some p ∧
      (⟨true, some (7/10), some (4607/50), some (4691/50), some 100, some 90⟩ :
        FibResult).zone_low = some (roundDec 2 zl) ∧
      (⟨true, some (7/10), some (4607/50), some (4691/50), some 100, some 90⟩ :
        FibResult).zone_high = some (roundDec 2 zh) ∧
      zl ≤ zh ∧ roundDec 2 zl ≤ roundDec 2 zh ∧ zl ≤ p ∧ p ≤ zh :=
  spec_c6_zone_amended (mkFibDf 100 90 93) Signal.BUY
    ⟨true, some (7/10), some (4607/50), some (4691/50), some 100, some 90⟩
    (by decide) (by decide)

/-- Core arithmetic of the amended C9: step-round, floor at vmin, cap at
vmax and 2-decimal round, when vmin and vmax are integer multiples of a
positive step that is itself an integer multiple of 0.01. -/
theorem lot_round_core (x step vmin vmax : ℚ) (ks km kM : ℤ)
    (hks : step = (ks : ℚ) / 100) (hpos : 0 < step)
    (hkm : vmin = (km : ℚ) * step) (hkM : vmax = (kM : ℚ) * step)
    (hmm : vmin ≤ vmax) :
    ∃ k : ℤ,
      roundDec 2 (min (max vmin ((roundHalfEvenInt (x / step) : ℚ) * step)) vmax) =
        (k : ℚ) * step ∧
      vmin ≤ roundDec 2 (min (max vmin ((roundHalfEvenInt (x / step) : ℚ) * step)) vmax) ∧
      roundDec 2 (min (max vmin ((roundHalfEvenInt (x / step) : ℚ) * step)) vmax) ≤ vmax := by
  set n := roundHalfEvenInt (x / step) with hn
  have hkmkM : km ≤ kM := by
    have h1 : (km : ℚ) * step ≤ (kM : ℚ) * step := by rw [← hkm, ← hkM]; exact hmm
    have h2 : (km : ℚ) ≤ (kM : ℚ) := le_of_mul_le_mul_right h1 hpos
    exact_mod_cast h2
  set j : ℤ := min (max km n) kM with hj
  have hmax_eq : max ((km : ℚ) * step) ((n : ℚ) * step) = ((max km n : ℤ) : ℚ) * step := by
    rw [Int.cast_max]
    exact (max_mul_of_nonneg _ _ (le_of_lt hpos)).symm
  have hmin_eq : min (max vmin ((n : ℚ) * step)) vmax = (j : ℚ) * step := by
    rw [hkm, hkM, hmax_eq, hj, Int.cast_min]
    exact (min_mul_of_nonneg _ _ (le_of_lt hpos)).symm
  rw [hmin_eq]
  have h100 : ((10 : ℚ) ^ (2 : ℕ)) = 100 := by norm_num
  have hcomb : (j : ℚ) * step = ((j * ks : ℤ) : ℚ) / (10 : ℚ) ^ (2 : ℕ) := by
    rw [h100, hks]
    push_cast
    ring
  have hround : roundDec 2 ((j : ℚ) * step) = (j : ℚ) * step := by
    rw [hcomb, roundDec_int_div]
  rw [hround]
  refine ⟨j, rfl, ?_, ?_⟩
  · rw [hkm]
    have hle : km ≤ j := le_min (le_max_left _ _) hkmkM
    exact mul_le_mul_of_nonneg_right (by exact_mod_cast hle) (le_of_lt hpos)
  · rw [hkM]
    have hle : j ≤ kM := min_le_right _ _
    exact mul_le_mul_of_nonneg_right (by exact_mod_cast hle) (le_of_lt hpos)

/-- C9 amended: provided volume_step is a positive integer multiple of 0.01
and volume_min, volume_max are integer multiples of volume_step with
volume_min ≤ volume_max, calculate_lot_size returns an integer multiple of
volume_step lying within [volume_min, volume_max]; the counterexample shows
the claim fails without these conditions (the final 2-decimal rounding and
the unconditioned min/max floors can leave the range). -/
theorem spec_c9_lot_amended (cfg : Config) (balance : ℚ) (si : SymbolInfo)
    (sl riskP : Option ℚ) (step vmin vmax : ℚ) (ks km kM : ℤ)
    (hstep : si.volume_step = some step) (hks : step = (ks : ℚ) / 100)
    (hpos : 0 < step)
    (hmin : si.volume_min = some vmin) (hkm : vmin = (km : ℚ) * step)
    (hmax : si.volume_max = some vmax) (hkM : vmax = (kM : ℚ) * step)
    (hmm : vmin ≤ vmax) :
    ∃ k : ℤ, calculateLotSize cfg balance si sl riskP = (k : ℚ) * step ∧
      vmin ≤ calculateLotSize cfg balance si sl riskP ∧
      calculateLotSize cfg balance si sl riskP ≤ vmax := by
  unfold calculateLotSize
  rw [hstep, hmin, hmax]
  simp only [Option.getD_some]
  exact lot_round_core _ step vmin vmax ks km kM hks hpos hkm hkM hmm

/-- Witness for C9 at the default-shaped metadata (step 0.01, min 0.01,
max 100). -/
theorem spec_c9_witness :
    ∃ k : ℤ, calculateLotSize repoConfig 10000
        ⟨some (1/100), some 100, some (1/100), some (1/100), some 100⟩
        (some 5) none = (k : ℚ) * (1/100) ∧
      (1/100 : ℚ) ≤ calculateLotSize repoConfig 10000
        ⟨some (1/100), some 100, some (1/100), some (1/100), some 100⟩
        (some 5) none ∧
      calculateLotSize repoConfig 10000
        ⟨some (1/100), some 100, some (1/100), some (1/100), some 100⟩
        (some 5) none ≤ 100 :=
  spec_c9_lot_amended repoConfig 10000
    ⟨some (1/100), some 100, some (1/100), some (1/100), some 100⟩
    (some 5) none (1/100) (1/100) 100 1 1 10000
    rfl (by norm_num) (by norm_num) rfl (by norm_num) rfl (by norm_num) (by norm_num)

/-- Every rejection path of finalizeSignal returns the supplied no-signal
dict, and its accepting path carries the selected (non-NONE) direction. -/
theorem finalizeSignal_shape (noSig : SignalDecision) (bs : Signal) (bm : ℕ)
    (bc : List (CondKey × Bool)) (pa : Option Bool) (ht : Option HtfTrend)
    (rq : ℕ) (rm : List (ℕ × ℚ)) (al : Option AtrLevels) (tt : ℕ)
    (hn : ∃ t, noSig = ⟨Signal.NONE, none, 0, t, [], 0⟩)
    (hbs : bs = Signal.NONE → lookupBool bc CondKey.tendencia = false) :
    (∃ t, finalizeSignal noSig bs bm bc pa ht rq rm al tt =
      ⟨Signal.NONE, none, 0, t, [], 0⟩) ∨
    (finalizeSignal noSig bs bm bc pa ht rq rm al tt).signal ≠ Signal.NONE := by
  unfold finalizeSignal
  split_ifs with h1 h2 h3 h4
  · exact Or.inl hn
  · exact Or.inl hn
  · exact Or.inl hn
  · exact Or.inl hn
  · cases hA : assignRisk rm bm with
    | none => exact Or.inl hn
    | some r =>
      right
      intro hcon
      simp only at hcon
      exact h1 (hbs hcon)

/-- Every evaluation of check_signal either returns a no-signal dict of the
degraded shape or carries a non-NONE direction. -/
theorem checkSignal_shape (cfg : Config) (df : List Bar)
    (dfHtf : Option (List Bar)) (sent : Option SentimentAdj) :
    (∃ t, checkSignal cfg df dfHtf sent = ⟨Signal.NONE, none, 0, t, [], 0⟩) ∨
    (checkSignal cfg df dfHtf sent).signal ≠ Signal.NONE := by
  unfold checkSignal
  split
  · exact Or.inl ⟨5, rfl⟩
  · split
    · exact Or.inl ⟨5, rfl⟩
    · split_ifs with h1 h2
      · exact Or.inl ⟨5, rfl⟩
      · exact Or.inl ⟨5, rfl⟩
      · refine finalizeSignal_shape _ _ _ _ _ _ _ _ _ _ ⟨totalConfluences cfg sent, rfl⟩ ?_
        intro hbsn
        unfold bestCondsOf
        rw [hbsn]
        rfl

/-- C10: whenever check_signal returns signal NONE - for any rejection
reason - the decision also carries confluences_met 0, risk_percent 0, no
ATR levels and an empty confluence detail, so a rejected evaluation never
exposes partial counts or sizing data. -/
theorem spec_c10_none_shape (cfg : Config) (df : List Bar)
    (dfHtf : Option (List Bar)) (sent : Option SentimentAdj)
    (h : (checkSignal cfg df dfHtf sent).signal = Signal.NONE) :
    (checkSignal cfg df dfHtf sent).confluences_met = 0 ∧
    (checkSignal cfg df dfHtf sent).risk_percent = 0 ∧
    (checkSignal cfg df dfHtf sent).atr_levels = none ∧
    (checkSignal cfg df dfHtf sent).confluences_detail = [] := by
  rcases checkSignal_shape cfg df dfHtf sent with ⟨t, ht⟩ | hne
  · rw [ht]
    exact ⟨rfl, rfl, rfl, rfl⟩
  · exact absurd h hne

/-- Witness for C10: a one-bar frame is rejected for insufficient history
and the returned dict has the degraded shape. -/
theorem spec_c10_witness :
    (checkSignal repoConfig [defaultBar] none none).confluences_met = 0 ∧
    (checkSignal repoConfig [defaultBar] none none).risk_percent = 0 ∧
    (checkSignal repoConfig [defaultBar] none none).atr_levels = none ∧
    (checkSignal repoConfig [defaultBar] none none).confluences_detail = [] :=
  spec_c10_none_shape repoConfig [defaultBar] none none (by decide)

/-- Closing a trade realizes exactly the recomputed P&L of the appended
record into the balance and leaves the equity curve unchanged. -/
theorem closeTrade_pres (init : ℚ) (st : BTState) (p : ℚ) (rsn : String)
    (h : st.balance = init + (st.trades.map tradePnl).sum) :
    (closeTrade st p rsn).balance =
      init + ((closeTrade st p rsn).trades.map tradePnl).sum ∧
    (closeTrade st p rsn).equity = st.equity := by
  unfold closeTrade
  cases hot : st.openTrade with
  | none => exact ⟨h, rfl⟩
  | some tr =>
    refine ⟨?_, rfl⟩
    simp only [List.map_append, List.sum_append, List.map_cons, List.map_nil,
      List.sum_cons, List.sum_nil, tradePnl]
    rw [h]
    ring

/-- Managing an open position only ever closes it (through closeTrade) or
adjusts its stop, so the balance invariant and the equity curve are
preserved. -/
theorem manageTrade_pres (cfg : Config) (init : ℚ) (st : BTState) (bar : Bar)
    (h : st.balance = init + (st.trades.map tradePnl).sum) :
    (manageTrade cfg st bar).balance =
      init + ((manageTrade cfg st bar).trades.map tradePnl).sum ∧
    (manageTrade cfg st bar).equity = st.equity := by
  unfold manageTrade
  cases hot : st.openTrade with
  | none => exact ⟨h, rfl⟩
  | some tr =>
    dsimp only
    split_ifs <;>
      first
        | exact closeTrade_pres init st _ _ h
        | exact ⟨h, rfl⟩

/-- Entering a position never touches the balance, the trade log or the
equity curve. -/
theorem checkEntry_fields (cfg : Config) (sent : Option SentimentAdj)
    (st : BTState) (w : List Bar) (bar : Bar) (hw : Option (List Bar)) :
    (checkEntry cfg sent st w bar hw).balance = st.balance ∧
    (checkEntry cfg sent st w bar hw).trades = st.trades ∧
    (checkEntry cfg sent st w bar hw).equity = st.equity := by
  unfold checkEntry
  dsimp only
  split_ifs <;> exact ⟨rfl, rfl, rfl⟩

/-- The entry stage preserves the balance invariant and the equity curve. -/
theorem btEntryStage_pres (cfg : Config) (sent : Option SentimentAdj)
    (df : List Bar) (h4 : Option (List Bar)) (init : ℚ) (st1 : BTState) (i : ℕ)
    (h : st1.balance = init + (st1.trades.map tradePnl).sum) :
    (btEntryStage cfg sent df h4 st1 i).balance =
      init + ((btEntryStage cfg sent df h4 st1 i).trades.map tradePnl).sum ∧
    (btEntryStage cfg sent df h4 st1 i).equity = st1.equity := by
  unfold btEntryStage
  split_ifs
  · exact ⟨h, rfl⟩
  · have hce := checkEntry_fields cfg sent st1 (df.take (i + 1)) (df.getD i defaultBar)
      (htfWindow h4 (df.getD i defaultBar))
    refine ⟨?_, hce.2.2⟩
    rw [hce.1, hce.2.1]
    exact h

/-- One loop iteration of the backtest preserves the balance invariant and
appends exactly one equity sample. -/
theorem btStep_pres (cfg : Config) (sent : Option SentimentAdj) (df : List Bar)
    (h4 : Option (List Bar)) (init : ℚ) (st : BTState) (i : ℕ)
    (h : st.balance = init + (st.trades.map tradePnl).sum) :
    (btStep cfg sent df h4 st i).balance =
      init + ((btStep cfg sent df h4 st i).trades.map tradePnl).sum ∧
    (btStep cfg sent df h4 st i).equity.length = st.equity.length + 1 := by
  have h1 : (if st.openTrade.isSome then manageTrade cfg st (df.getD i defaultBar)
      else st).balance = init + (((if st.openTrade.isSome then
        manageTrade cfg st (df.getD i defaultBar) else st)).trades.map tradePnl).sum ∧
      (if st.openTrade.isSome then manageTrade cfg st (df.getD i defaultBar)
        else st).equity = st.equity := by
    split_ifs
    · exact manageTrade_pres cfg init st (df.getD i defaultBar) h
    · exact ⟨h, rfl⟩
  have h2 := btEntryStage_pres cfg sent df h4 init
    (if st.openTrade.isSome then manageTrade cfg st (df.getD i defaultBar) else st) i h1.1
  unfold btStep btSample
  refine ⟨h2.1, ?_⟩
  rw [List.length_append, h2.2, h1.2]
  rfl

/-- Folding the loop body over any index list keeps the balance equal to the
initial balance plus the recomputed P&L of the recorded trades and grows the
equity curve by exactly one sample per iteration. -/
theorem btFold_pres (cfg : Config) (sent : Option SentimentAdj) (df : List Bar)
    (h4 : Option (List Bar)) (init : ℚ) :
    ∀ (l : List ℕ) (st : BTState),
      st.balance = init + (st.trades.map tradePnl).sum →
      ((l.foldl (btStep cfg sent df h4) st).balance =
        init + ((l.foldl (btStep cfg sent df h4) st).trades.map tradePnl).sum ∧
       (l.foldl (btStep cfg sent df h4) st).equity.length =
        st.equity.length + l.length) := by
  intro l
  induction l with
  | nil => intro st h; exact ⟨h, rfl⟩
  | cons a l ih =>
    intro st h
    have hstep := btStep_pres cfg sent df h4 init st a h
    have hrec := ih (btStep cfg sent df h4 st a) hstep.1
    refine ⟨hrec.1, ?_⟩
    rw [List.foldl_cons, hrec.2, hstep.2, List.length_cons]
    omega

/-- C8: for every backtest run over at least the warm-up minimum of bars,
the equity curve has exactly bar_count - warmup + 1 samples, and the final
balance is the initial balance plus the sum of the P&L of all recorded
trades (each recomputed from the entry price, exit price and lot size the
record stores; the record's pnl field is that value rounded to 2 decimals),
including the forced close of a position still open at the final bar. -/
theorem spec_c8_backtest_accounting (cfg : Config) (sent : Option SentimentAdj)
    (initial : ℚ) (df : List Bar) (hlen : minBars cfg ≤ df.length) :
    (btRun cfg sent initial df).equity.length = df.length - minBars cfg + 1 ∧
    (btRun cfg sent initial df).balance =
      initial + ((btRun cfg sent initial df).trades.map tradePnl).sum := by
  unfold btRun
  rw [if_neg (by omega : ¬ df.length < minBars cfg)]
  dsimp only
  have hfold := btFold_pres cfg sent df
    (if cfg.mtfEnabled then some (resampleToH4 df) else none) initial
    (List.range' (minBars cfg) (df.length - minBars cfg)) (btInit initial)
    (by simp [btInit])
  rw [List.length_range'] at hfold
  cases hot : ((List.range' (minBars cfg) (df.length - minBars cfg)).foldl
      (btStep cfg sent df (if cfg.mtfEnabled then some (resampleToH4 df) else none))
      (btInit initial)).openTrade with
  | none =>
    refine ⟨?_, hfold.1⟩
    rw [hfold.2]
    simp only [btInit, List.length_singleton]
    omega
  | some tr =>
    have hclose := closeTrade_pres initial _
      ((df.getLast?.map (·.close)).getD 0) "FIN_BACKTEST" hfold.1
    refine ⟨?_, hclose.1⟩
    rw [hclose.2, hfold.2]
    simp only [btInit, List.length_singleton]
    omega

/-- Witness for C8: a flat 220-bar frame meets the warm-up minimum of the
repository configuration exactly, giving a single equity sample. -/
theorem spec_c8_witness :
    (btRun repoConfig none 10000 (mkFlatDf 220)).equity.length =
      (mkFlatDf 220).length - minBars repoConfig + 1 ∧
    (btRun repoConfig none 10000 (mkFlatDf 220)).balance =
      10000 + ((btRun repoConfig none 10000 (mkFlatDf 220)).trades.map tradePnl).sum :=
  spec_c8_backtest_accounting repoConfig none 10000 (mkFlatDf 220) (by decide)
